import Mathlib

/-
  Verification of the TerraFin cost-estimation core against its
  specification.

  Shallow embedding of the Python sources:
    terrafin_calculator/plan_parser.py       (PlanParser)
    terrafin_calculator/azure_pricing.py     (AzurePricingClient)
    terrafin_calculator/resource_handlers.py (resource handlers, registry)
    terrafin_calculator/calculator.py        (CostCalculator)

  Conventions of the embedding:
  * Python floats are modelled as rationals (ℚ).
  * A Python dict value that may be missing is an `Option`; Python string
    truthiness (`if not s:`) is `strTruthy`.
  * Fallible methods return `Except String` (`.error` = a raised exception).
  * The pricing HTTP endpoint is a parameter (`api`), `datetime.now()` is an
    explicit time parameter (in hours, matching CACHE_DURATION = 1 hour),
    and the client cache is explicit state.
-/

namespace TerraFin

/-- Python truthiness of an optional string: `None` and `""` are falsy. -/
def strTruthy : Option String → Bool
  | none => false
  | some s => !s.isEmpty

/-! ## Plan documents and parsing (plan_parser.py) -/

/-- The verbs that can occur in a plan entry's `change.actions` array. -/
inductive Action
  | create
  | update
  | delete
  | read
  | noop
deriving DecidableEq

/-- One `sku` block object as it appears in raw plan values (used by the
App Service Plan handler: `size`/`name` keys). -/
structure SkuObj where
  size : Option String
  name : Option String
deriving DecidableEq

/-- The raw `sku` value of a resource: a plain string, a list of blocks, or a
single block object (the handler distinguishes these with `isinstance`). -/
inductive SkuVal
  | str (s : String)
  | blocks (l : List SkuObj)
  | obj (o : SkuObj)
deriving DecidableEq

/-- One element of a VM's `os_disk` list. -/
structure OsDiskBlock where
  storage_account_type : Option String
deriving DecidableEq

/-- The `change.after` attribute map of a resource change, restricted to the
keys the program reads.  A missing key is `none`. -/
structure AfterValues where
  location : Option String
  sku : Option SkuVal
  size : Option String
  tier : Option String
  capacity : Option Int
  account_type : Option String
  account_replication_type : Option String
  account_tier : Option String
  os_disk : Option (List OsDiskBlock)
  storage_account_type : Option String
  disk_size_gb : Option Int
  sku_name : Option String
deriving DecidableEq

/-- `change.get('after', {})` for an absent `after`: the empty dict. -/
def AfterValues.empty : AfterValues :=
  ⟨none, none, none, none, none, none, none, none, none, none, none, none⟩

/-- One entry of the plan's `resource_changes` array.  `address`, `type` and
`name` default to `""` when absent (the code reads them with `.get(k, '')`);
`actions` is `change.get('change', {}).get('actions')`. -/
structure ResourceChange where
  address : String
  type : String
  name : String
  actions : Option (List Action)
  after : AfterValues
deriving DecidableEq

/-- A parsed plan JSON document: the optional `resource_changes` array plus
the number of other top-level keys (needed to model Python dict truthiness:
`not self.plan_data` is true for the empty dict `{}`). -/
structure PlanDoc where
  resource_changes : Option (List ResourceChange)
  otherKeys : Nat
deriving DecidableEq

/-- Python truthiness of the plan dict: non-empty. -/
def PlanDoc.truthy (d : PlanDoc) : Bool :=
  d.resource_changes.isSome || d.otherKeys != 0

/-- `PlanParser` state: the file path and the loaded data (`None` before
`load_plan`). -/
structure PlanParser where
  plan_file : String
  plan_data : Option PlanDoc

/-- `PlanParser.load_plan`, given the document parsed from the file (file
reading and JSON decoding are outside the embedding; a successful load
stores the parsed document). -/
def PlanParser.load_plan (p : PlanParser) (doc : PlanDoc) : PlanParser :=
  { p with plan_data := some doc }

/-- Message of the `ValueError` raised by the query methods. -/
def notLoadedMsg : String := "Plan data not loaded. Call load_plan() first."

/-- The extracted configuration of one resource change
(`PlanParser._extract_resource_config`). -/
structure ResourceConfig where
  type : String
  name : String
  address : String
  location : Option String
  sku : Option SkuVal
  size : Option String
  tier : Option String
  capacity : Option Int
  account_type : Option String
  account_replication_type : Option String
  raw_values : AfterValues
deriving DecidableEq

/-- `PlanParser._extract_resource_config`: pull type/name/address and the
common attributes out of the `after` values, and retain the raw map. -/
def extract_resource_config (change : ResourceChange) : ResourceConfig :=
  { type := change.type
    name := change.name
    address := change.address
    location := change.after.location
    sku := change.after.sku
    size := change.after.size
    tier := change.after.tier
    capacity := change.after.capacity
    account_type := change.after.account_type
    account_replication_type := change.after.account_replication_type
    raw_values := change.after }

/-- The filter used by `get_resource_changes`:
`change.get('change', {}).get('actions') in [['create'], ['update']]`. -/
def actionsCreateOrUpdate (c : ResourceChange) : Bool :=
  c.actions == some [Action.create] || c.actions == some [Action.update]

/-- `PlanParser.get_resource_changes`. -/
def PlanParser.get_resource_changes (p : PlanParser) :
    Except String (List ResourceConfig) :=
  match p.plan_data with
  | none => .error notLoadedMsg
  | some d =>
      if !d.truthy then .error notLoadedMsg
      else
        match d.resource_changes with
        | none => .ok []
        | some cs => .ok ((cs.filter actionsCreateOrUpdate).map extract_resource_config)

/-- `PlanParser.get_resource_count`. -/
def PlanParser.get_resource_count (p : PlanParser) : Except String Nat :=
  match p.plan_data with
  | none => .error notLoadedMsg
  | some d =>
      if !d.truthy then .error notLoadedMsg
      else
        match p.get_resource_changes with
        | .ok l => .ok l.length
        | .error e => .error e

/-- `PlanParser.get_resource_types` (`list(set(...))`; the set of distinct
type strings, since the Python list order over a set is unspecified). -/
def PlanParser.get_resource_types (p : PlanParser) : Except String (Finset String) :=
  match p.plan_data with
  | none => .error notLoadedMsg
  | some d =>
      if !d.truthy then .error notLoadedMsg
      else
        match p.get_resource_changes with
        | .ok l => .ok (l.map ResourceConfig.type).toFinset
        | .error e => .error e

/-- Whether the parser holds truthy plan data (`self.plan_data` truthiness,
the guard all three query methods test). -/
def PlanParser.loadedTruthy (p : PlanParser) : Bool :=
  match p.plan_data with
  | none => false
  | some d => d.truthy

/-! ## Azure pricing client (azure_pricing.py) -/

/-- A pricing API item (`retailPrice` / `unitPrice` / `currencyCode` plus the
`type` tag); each field read with `.get`, hence optional. -/
structure PriceData where
  retailPrice : Option ℚ
  unitPrice : Option ℚ
  currencyCode : Option String
  type : Option String
deriving DecidableEq

/-- The dict the client builds from a static-table price. -/
def consumptionQuote (price : ℚ) : PriceData :=
  ⟨some price, some price, some "USD", some "Consumption"⟩

/-- `AzurePricingClient.VM_PRICING` (dollars per hour). -/
def VM_PRICING : String → Option ℚ := fun size =>
  if size = "Standard_D2s_v3" then some (96 / 1000)
  else if size = "Standard_D4s_v3" then some (192 / 1000)
  else if size = "Standard_D8s_v3" then some (384 / 1000)
  else none

/-- `AzurePricingClient.STORAGE_PRICING` (dollars per GB per month). -/
def STORAGE_PRICING : String → Option ℚ := fun account_type =>
  if account_type = "Standard_LRS" then some (184 / 10000)
  else if account_type = "Standard_GRS" then some (368 / 10000)
  else if account_type = "Premium_LRS" then some (15 / 100)
  else if account_type = "Premium_ZRS" then some (175 / 1000)
  else none

/-- `AzurePricingClient.DISK_PRICING` (dollars per month, by storage type and
performance tier). -/
def DISK_PRICING : String → String → Option ℚ := fun storage_type tier =>
  if storage_type = "Standard_LRS" then
    if tier = "P4" then some (528 / 100)
    else if tier = "P6" then some (1021 / 100)
    else if tier = "P10" then some (1971 / 100)
    else if tier = "P15" then some (3844 / 100)
    else if tier = "P20" then some (7322 / 100)
    else none
  else if storage_type = "Premium_LRS" then
    if tier = "P4" then some (1584 / 100)
    else if tier = "P6" then some (3063 / 100)
    else if tier = "P10" then some (5913 / 100)
    else if tier = "P15" then some (11532 / 100)
    else if tier = "P20" then some (21966 / 100)
    else none
  else none

/-- Python truthiness of an optional number (`if hourly_rate:`): `None` and a
zero price are falsy. -/
def numTruthy : Option ℚ → Bool
  | none => false
  | some q => decide (q ≠ 0)

/-- The tier ladder of `get_managed_disk_price`. -/
def diskTier (size_gb : Int) : String :=
  if size_gb ≤ 32 then "P4"
  else if size_gb ≤ 64 then "P6"
  else if size_gb ≤ 128 then "P10"
  else if size_gb ≤ 256 then "P15"
  else "P20"

/-! ### The cache key

`_fetch_price` canonicalizes its keyword arguments as
`"|".join(f"{k}={v}" for k, v in sorted(filters.items()))`.  Python sorts the
`(key, value)` string pairs lexicographically by code points; we embed that
order on `List Char` / pairs and sort with `List.insertionSort` (the order is
total and antisymmetric, so the sorted list — and hence the joined string —
does not depend on the sorting algorithm). -/

/-- Strict lexicographic code-point order on char lists (Python string `<`). -/
def listCharLt : List Char → List Char → Bool
  | [], [] => false
  | [], _ :: _ => true
  | _ :: _, [] => false
  | a :: as, b :: bs =>
      if a < b then true
      else if b < a then false
      else listCharLt as bs

/-- Strict order on `(key, value)` string pairs (Python tuple `<`). -/
def pairLt (x y : String × String) : Bool :=
  if listCharLt x.1.data y.1.data then true
  else if listCharLt y.1.data x.1.data then false
  else listCharLt x.2.data y.2.data

/-- The reflexive closure of `pairLt`: the total order Python sorts by. -/
def pairOrd (x y : String × String) : Prop :=
  pairLt x y = true ∨ x = y

instance (x y : String × String) : Decidable (pairOrd x y) :=
  decidable_of_iff (pairLt x y = true ∨ x = y) Iff.rfl

/-- `sorted(filters.items())`. -/
def sortPairs (l : List (String × String)) : List (String × String) :=
  List.insertionSort pairOrd l

/-- `"|".join`. -/
def joinBar : List String → String
  | [] => ""
  | [s] => s
  | s :: t :: rest => s ++ "|" ++ joinBar (t :: rest)

/-- The canonical cache key of a filter set. -/
def cacheKey (filters : List (String × String)) : String :=
  joinBar ((sortPairs filters).map fun p => p.1 ++ "=" ++ p.2)

/-- `CACHE_DURATION = timedelta(hours=1)`, in hours. -/
def CACHE_DURATION : ℚ := 1

/-- The client's cache: key to (item, time stored).  This merges the two
parallel dicts `_cache` and `_cache_timestamps`, which the code always
writes together. -/
structure ClientState where
  cache : List (String × PriceData × ℚ)
deriving DecidableEq

/-- Dict lookup in the cache. -/
def lookupCache : List (String × PriceData × ℚ) → String → Option (PriceData × ℚ)
  | [], _ => none
  | (k, pd, ts) :: rest, key => if k = key then some (pd, ts) else lookupCache rest key

/-- Dict overwrite of one cache key. -/
def storeCache (entries : List (String × PriceData × ℚ)) (key : String)
    (pd : PriceData) (ts : ℚ) : List (String × PriceData × ℚ) :=
  (key, pd, ts) :: entries.filter fun e => e.1 ≠ key

/-- What one HTTP query of the retail-prices endpoint yields: a response with
a first item, a response with no items, or a raised request error. -/
inductive ApiResp
  | items (pd : PriceData)
  | empty
  | failure

/-- Result of `_fetch_price`: a returned value or a propagated exception. -/
inductive FetchOutcome
  | ok (pd : Option PriceData)
  | exc
deriving DecidableEq

/-- `AzurePricingClient._fetch_price`.  `api` is the remote endpoint
(the `$filter` string it receives is built from `filters`; the response is
abstracted into `ApiResp`), `now` is `datetime.now()`.  Returns the outcome,
the new cache state, and whether a remote request was issued. -/
def fetch_price (api : List (String × String) → ApiResp) (now : ℚ)
    (filters : List (String × String)) (st : ClientState) :
    FetchOutcome × ClientState × Bool :=
  let key := cacheKey filters
  let remote : FetchOutcome × ClientState × Bool :=
    match api filters with
    | .failure => (.exc, st, true)
    | .empty => (.ok none, st, true)
    | .items pd => (.ok (some pd), ⟨storeCache st.cache key pd now⟩, true)
  match lookupCache st.cache key with
  | some (pd, ts) => if now - ts < CACHE_DURATION then (.ok (some pd), st, false) else remote
  | none => remote

/-- `AzurePricingClient.get_vm_price`: static table first, then the API;
a request error is caught and yields `None`. -/
def get_vm_price (api : List (String × String) → ApiResp) (now : ℚ)
    (size region : String) (st : ClientState) : Option PriceData × ClientState :=
  if numTruthy (VM_PRICING size) then
    (some (consumptionQuote ((VM_PRICING size).getD 0)), st)
  else
    match fetch_price api now
        [("serviceName", "Virtual Machines"), ("armRegionName", region), ("skuName", size)] st with
    | (.ok (some pd), st2, _) => (some pd, st2)
    | (.ok none, st2, _) => (none, st2)
    | (.exc, st2, _) => (none, st2)

/-- `AzurePricingClient.get_storage_price`. -/
def get_storage_price (api : List (String × String) → ApiResp) (now : ℚ)
    (account_type region : String) (st : ClientState) : Option PriceData × ClientState :=
  if numTruthy (STORAGE_PRICING account_type) then
    (some (consumptionQuote ((STORAGE_PRICING account_type).getD 0)), st)
  else
    match fetch_price api now
        [("serviceName", "Storage"), ("armRegionName", region), ("skuName", account_type)] st with
    | (.ok (some pd), st2, _) => (some pd, st2)
    | (.ok none, st2, _) => (none, st2)
    | (.exc, st2, _) => (none, st2)

/-- `AzurePricingClient.get_managed_disk_price`: tier ladder, static table,
then the API. -/
def get_managed_disk_price (api : List (String × String) → ApiResp) (now : ℚ)
    (storage_type : String) (size_gb : Int) (region : String) (st : ClientState) :
    Option PriceData × ClientState :=
  let tier := diskTier size_gb
  if numTruthy (DISK_PRICING storage_type tier) then
    (some (consumptionQuote ((DISK_PRICING storage_type tier).getD 0)), st)
  else
    match fetch_price api now
        [("serviceName", "Managed Disks"), ("armRegionName", region),
         ("skuName", storage_type), ("tierName", tier)] st with
    | (.ok (some pd), st2, _) => (some pd, st2)
    | (.ok none, st2, _) => (none, st2)
    | (.exc, st2, _) => (none, st2)

/-! ## Resource handlers (resource_handlers.py)

A handler receives the pricing client; the three client methods it may call
are abstracted into a `PricingEnv` record (the value each call returns at the
point it is made). -/

/-- The pricing-client interface as seen by the handlers. -/
structure PricingEnv where
  vmPrice : String → String → Option PriceData
  storagePrice : String → String → Option PriceData
  diskPrice : String → Int → String → Option PriceData

/-- `ResourceHandler._get_location`: the raw `location` if truthy, else the
config-level one. -/
def get_location (rc : ResourceConfig) : Option String :=
  if strTruthy rc.raw_values.location then rc.raw_values.location else rc.location

/-- The `os_disk` element the VM handler reads:
`raw_values.get('os_disk', [{}])[0]`.  `none` means the key held an empty
list, so the subscript raises `IndexError` (caught by the handler's own
`try`, which then returns `None`). -/
def observedOsDisk (raw : AfterValues) : Option OsDiskBlock :=
  (raw.os_disk.getD [⟨none⟩]).head?

/-- `VirtualMachineHandler.calculate_cost`. -/
def VirtualMachineHandler.calculate_cost (env : PricingEnv) (rc : ResourceConfig) :
    Option ℚ :=
  let raw := rc.raw_values
  if !(strTruthy raw.size && strTruthy (get_location rc)) then none
  else
    let s := raw.size.getD ""
    let l := (get_location rc).getD ""
    match env.vmPrice s l with
    | none => none
    | some pd =>
        let monthly := pd.retailPrice.getD 0 * 730
        match observedOsDisk raw with
        | none => none
        | some blk =>
            if strTruthy blk.storage_account_type then
              match env.diskPrice (blk.storage_account_type.getD "") 128 l with
              | some dp => some (monthly + dp.retailPrice.getD 0)
              | none => some monthly
            else some monthly

/-- `StorageAccountHandler.calculate_cost`. -/
def StorageAccountHandler.calculate_cost (env : PricingEnv) (rc : ResourceConfig) :
    Option ℚ :=
  let raw := rc.raw_values
  let account_tier := raw.account_tier.getD ""
  let replication_type := raw.account_replication_type.getD ""
  if !(!account_tier.isEmpty && !replication_type.isEmpty && strTruthy (get_location rc))
  then none
  else
    let account_type := account_tier ++ "_" ++ replication_type
    match env.storagePrice account_type ((get_location rc).getD "") with
    | none => none
    | some pd => some (pd.retailPrice.getD 0 * 100)

/-- `ManagedDiskHandler.calculate_cost`.  `disk_size_gb` is read with
`int(raw_values.get('disk_size_gb', 0))`. -/
def ManagedDiskHandler.calculate_cost (env : PricingEnv) (rc : ResourceConfig) :
    Option ℚ :=
  let raw := rc.raw_values
  let disk_size_gb := raw.disk_size_gb.getD 0
  if !(strTruthy raw.storage_account_type && strTruthy (get_location rc)
        && disk_size_gb != 0)
  then none
  else
    match env.diskPrice (raw.storage_account_type.getD "") disk_size_gb
        ((get_location rc).getD "") with
    | none => none
    | some pd => some (pd.retailPrice.getD 0)

/-- The handlers that always return `0.0` (network interface, virtual
network, subnet, resource group, logic-app action, logic-app trigger). -/
def ZeroCostHandler.calculate_cost (_env : PricingEnv) (_rc : ResourceConfig) :
    Option ℚ :=
  some 0

/-- `LogicAppHandler.calculate_cost`: 100000 executions × $0.000125. -/
def LogicAppHandler.calculate_cost (_env : PricingEnv) (_rc : ResourceConfig) :
    Option ℚ :=
  some (100000 * (125 / 1000000))

/-- The `sku` string resolved by `AppServicePlanHandler`: `sku_name` if
truthy, else the `size`-or-`name` of the (first) `sku` block. -/
def appServiceSku (raw : AfterValues) : Option String :=
  if strTruthy raw.sku_name then raw.sku_name
  else
    match raw.sku with
    | some (.blocks (b :: _)) => if strTruthy b.size then b.size else b.name
    | some (.obj o) => if strTruthy o.size then o.size else o.name
    | _ => none

/-- The B1/B2/B3 table of `AppServicePlanHandler`, with the `.get(key, 0)`
default. -/
def appServicePlanTable (sku : String) : ℚ :=
  if sku = "B1" then 5475 / 100
  else if sku = "B2" then 10950 / 100
  else if sku = "B3" then 21899 / 100
  else 0

/-- `AppServicePlanHandler.calculate_cost` (note the `if monthly_cost:`
truthiness check, which sends a 0 table value to `None`). -/
def AppServicePlanHandler.calculate_cost (_env : PricingEnv) (rc : ResourceConfig) :
    Option ℚ :=
  let sku := appServiceSku rc.raw_values
  if !(strTruthy sku && strTruthy (get_location rc)) then none
  else
    let monthly := appServicePlanTable (sku.getD "").toUpper
    if monthly ≠ 0 then some monthly else none

/-- `RESOURCE_HANDLERS` / `get_handler`: resource type to handler, or `none`
for an unrecognized type. -/
def get_handler (resource_type : String) :
    Option (PricingEnv → ResourceConfig → Option ℚ) :=
  if resource_type = "azurerm_virtual_machine" then some VirtualMachineHandler.calculate_cost
  else if resource_type = "azurerm_windows_virtual_machine" then some VirtualMachineHandler.calculate_cost
  else if resource_type = "azurerm_linux_virtual_machine" then some VirtualMachineHandler.calculate_cost
  else if resource_type = "azurerm_storage_account" then some StorageAccountHandler.calculate_cost
  else if resource_type = "azurerm_managed_disk" then some ManagedDiskHandler.calculate_cost
  else if resource_type = "azurerm_network_interface" then some ZeroCostHandler.calculate_cost
  else if resource_type = "azurerm_virtual_network" then some ZeroCostHandler.calculate_cost
  else if resource_type = "azurerm_subnet" then some ZeroCostHandler.calculate_cost
  else if resource_type = "azurerm_resource_group" then some ZeroCostHandler.calculate_cost
  else if resource_type = "azurerm_logic_app_workflow" then some LogicAppHandler.calculate_cost
  else if resource_type = "azurerm_logic_app_action_custom" then some ZeroCostHandler.calculate_cost
  else if resource_type = "azurerm_logic_app_trigger_custom" then some ZeroCostHandler.calculate_cost
  else if resource_type = "azurerm_service_plan" then some AppServicePlanHandler.calculate_cost
  else if resource_type = "azurerm_app_service_plan" then some AppServicePlanHandler.calculate_cost
  else none

/-! ## Cost calculator (calculator.py) -/

/-- `CostCalculator._extract_cost_details`: the four display keys (the dict
drops `None` entries; here an absent entry is `none`). -/
structure CostDetails where
  location : Option String
  size : Option String
  sku : Option SkuVal
  tier : Option String
deriving DecidableEq

/-- Build the details map of a resource. -/
def extract_cost_details (rc : ResourceConfig) : CostDetails :=
  ⟨rc.location, rc.size, rc.sku, rc.tier⟩

/-- The `ResourceCost` dataclass. -/
structure ResourceCost where
  address : String
  type : String
  name : String
  monthly_cost : Option ℚ
  details : CostDetails
deriving DecidableEq

/-- The `CostBreakdown` dataclass. -/
structure CostBreakdown where
  resources : List ResourceCost
  total_monthly_cost : ℚ
  unknown_costs : List String
deriving DecidableEq

/-- What one call of `handler.calculate_cost(resource)` can do, as observed
by the aggregation loop: return an optional cost, or raise. -/
inductive HResult
  | ok (cost : Option ℚ)
  | exc

/-- The aggregation loop of `CostCalculator.calculate_costs`, parameterized
by the per-resource outcome `run` (with `run r = none` meaning `get_handler`
found no handler for `r`, and `some .exc` a raised exception, which the
loop's `try`/`except` turns into an unknown cost).  The function is total: it
always yields a `CostBreakdown`. -/
def calculate_costs_from (run : ResourceConfig → Option HResult) :
    List ResourceConfig → CostBreakdown
  | [] => ⟨[], 0, []⟩
  | r :: rest =>
      let b := calculate_costs_from run rest
      match run r with
      | none => ⟨b.resources, b.total_monthly_cost, r.address :: b.unknown_costs⟩
      | some (.ok (some c)) =>
          ⟨⟨r.address, r.type, r.name, some c, extract_cost_details r⟩ :: b.resources,
            c + b.total_monthly_cost, b.unknown_costs⟩
      | some (.ok none) => ⟨b.resources, b.total_monthly_cost, r.address :: b.unknown_costs⟩
      | some .exc => ⟨b.resources, b.total_monthly_cost, r.address :: b.unknown_costs⟩

/-- The dispatch the loop actually performs: look the handler up in the
registry and invoke it (the embedded handlers are total functions). -/
def dispatch (env : PricingEnv) (r : ResourceConfig) : Option HResult :=
  (get_handler r.type).map fun h => .ok (h env r)

/-- `CostCalculator.calculate_costs` on an extracted resource list. -/
def calculate_costs (env : PricingEnv) (rs : List ResourceConfig) : CostBreakdown :=
  calculate_costs_from (dispatch env) rs

/-- `CostCalculator.validate_cost_threshold` (`cost_threshold` is `None`
until `set_cost_threshold` is called). -/
def validate_cost_threshold (cost_threshold : Option ℚ) (breakdown : CostBreakdown) :
    Bool :=
  match cost_threshold with
  | none => true
  | some t => decide (breakdown.total_monthly_cost ≤ t)

/-! ## Spec-side observers -/

/-- Whether a query raised (an `Except.error`). -/
def raised {α : Type} : Except String α → Bool
  | .error _ => true
  | .ok _ => false

/-- Whether a per-resource outcome is a known cost: the handler existed,
returned, and returned a value (a zero cost included). -/
def knownOutcome : Option HResult → Bool
  | some (.ok (some _)) => true
  | _ => false

/-! ## Aggregation-loop lemmas -/

theorem calculate_costs_from_total_eq_sum (run : ResourceConfig → Option HResult)
    (rs : List ResourceConfig) :
    (calculate_costs_from run rs).total_monthly_cost
      = ((calculate_costs_from run rs).resources.map fun r => r.monthly_cost.getD 0).sum := by
  induction rs with
  | nil => simp [calculate_costs_from]
  | cons r rest ih =>
      rcases hr : run r with _ | hres
      · simpa [calculate_costs_from, hr] using ih
      · rcases hres with co | _
        · rcases co with _ | c <;> simp [calculate_costs_from, hr, ih]
        · simpa [calculate_costs_from, hr] using ih

theorem calculate_costs_from_resources_known (run : ResourceConfig → Option HResult)
    (rs : List ResourceConfig) :
    ∀ r ∈ (calculate_costs_from run rs).resources, r.monthly_cost.isSome := by
  induction rs with
  | nil => simp [calculate_costs_from]
  | cons r rest ih =>
      rcases hr : run r with _ | hres
      · simpa [calculate_costs_from, hr] using ih
      · rcases hres with co | _
        · rcases co with _ | c
          · simpa [calculate_costs_from, hr] using ih
          · intro x hx
            rcases (by simpa [calculate_costs_from, hr] using hx :
                x = ⟨r.address, r.type, r.name, some c, extract_cost_details r⟩
                  ∨ x ∈ (calculate_costs_from run rest).resources) with h | h
            · simp [h]
            · exact ih x h
        · simpa [calculate_costs_from, hr] using ih

theorem calculate_costs_from_resources_addresses (run : ResourceConfig → Option HResult)
    (rs : List ResourceConfig) :
    (calculate_costs_from run rs).resources.map ResourceCost.address
      = (rs.filter fun r => knownOutcome (run r)).map ResourceConfig.address := by
  induction rs with
  | nil => simp [calculate_costs_from]
  | cons r rest ih =>
      rcases hr : run r with _ | hres
      · simpa [calculate_costs_from, knownOutcome, hr] using ih
      · rcases hres with co | _
        · rcases co with _ | c <;>
            simp [calculate_costs_from, knownOutcome, hr, ih]
        · simpa [calculate_costs_from, knownOutcome, hr] using ih

theorem calculate_costs_from_unknown_addresses (run : ResourceConfig → Option HResult)
    (rs : List ResourceConfig) :
    (calculate_costs_from run rs).unknown_costs
      = (rs.filter fun r => !knownOutcome (run r)).map ResourceConfig.address := by
  induction rs with
  | nil => simp [calculate_costs_from]
  | cons r rest ih =>
      rcases hr : run r with _ | hres
      · simp [calculate_costs_from, knownOutcome, hr, ih]
      · rcases hres with co | _
        · rcases co with _ | c <;>
            simp [calculate_costs_from, knownOutcome, hr, ih]
        · simp [calculate_costs_from, knownOutcome, hr, ih]

/-- C1: for every plan's extracted resource list and every per-resource
pricing outcome, `calculate_costs` yields a breakdown whose
`total_monthly_cost` is the sum of `monthly_cost` over the `resources` list
(each entry of which carries a known cost, a cost of exactly zero included),
whose `resources` list holds exactly the resources with a known cost and
whose `unknown_costs` list holds exactly the others — in order, with no
resource duplicated or omitted (the two lengths add up to the input length). -/
theorem calculate_costs_sum_and_partition (run : ResourceConfig → Option HResult)
    (rs : List ResourceConfig) :
    (calculate_costs_from run rs).total_monthly_cost
        = ((calculate_costs_from run rs).resources.map fun r => r.monthly_cost.getD 0).sum
    ∧ (∀ r ∈ (calculate_costs_from run rs).resources, r.monthly_cost.isSome)
    ∧ (calculate_costs_from run rs).resources.map ResourceCost.address
        = (rs.filter fun r => knownOutcome (run r)).map ResourceConfig.address
    ∧ (calculate_costs_from run rs).unknown_costs
        = (rs.filter fun r => !knownOutcome (run r)).map ResourceConfig.address
    ∧ (calculate_costs_from run rs).resources.length
        + (calculate_costs_from run rs).unknown_costs.length = rs.length
    ∧ ∀ env, calculate_costs env rs = calculate_costs_from (dispatch env) rs := by
  refine ⟨calculate_costs_from_total_eq_sum run rs,
    calculate_costs_from_resources_known run rs,
    calculate_costs_from_resources_addresses run rs,
    calculate_costs_from_unknown_addresses run rs, ?_, fun _ => rfl⟩
  have h1 := congrArg List.length (calculate_costs_from_resources_addresses run rs)
  have h2 := congrArg List.length (calculate_costs_from_unknown_addresses run rs)
  simp only [List.length_map] at h1 h2
  rw [h1, h2, ← List.length_eq_length_filter_add]

theorem calculate_costs_from_append (run : ResourceConfig → Option HResult)
    (xs ys : List ResourceConfig) :
    calculate_costs_from run (xs ++ ys) =
      ⟨(calculate_costs_from run xs).resources ++ (calculate_costs_from run ys).resources,
       (calculate_costs_from run xs).total_monthly_cost
         + (calculate_costs_from run ys).total_monthly_cost,
       (calculate_costs_from run xs).unknown_costs
         ++ (calculate_costs_from run ys).unknown_costs⟩ := by
  induction xs with
  | nil => simp [calculate_costs_from]
  | cons r rest ih =>
      rcases hr : run r with _ | hres
      · simp [calculate_costs_from, hr, ih]
      · rcases hres with co | _
        · rcases co with _ | c <;> simp [calculate_costs_from, hr, ih, add_assoc]
        · simp [calculate_costs_from, hr, ih]

/-- C3: a raised per-resource exception is caught by the aggregation loop:
the failing resource's address goes to `unknown_costs` (and nowhere else),
every other resource — before and after it — is still processed exactly as
it would be on its own, and the (total) embedded `calculate_costs_from`
always yields a `CostBreakdown`, whatever the outcomes, every-resource-raises
included. -/
theorem calculate_costs_error_isolated (run : ResourceConfig → Option HResult)
    (pre post : List ResourceConfig) (r : ResourceConfig)
    (hexc : run r = some HResult.exc) :
    r.address ∈ (calculate_costs_from run (pre ++ r :: post)).unknown_costs
    ∧ (calculate_costs_from run (pre ++ r :: post)).resources
        = (calculate_costs_from run pre).resources
            ++ (calculate_costs_from run post).resources
    ∧ (calculate_costs_from run (pre ++ r :: post)).unknown_costs
        = (calculate_costs_from run pre).unknown_costs
            ++ r.address :: (calculate_costs_from run post).unknown_costs
    ∧ (calculate_costs_from run (pre ++ r :: post)).total_monthly_cost
        = (calculate_costs_from run pre).total_monthly_cost
            + (calculate_costs_from run post).total_monthly_cost := by
  have hcons : calculate_costs_from run (r :: post)
      = ⟨(calculate_costs_from run post).resources,
         (calculate_costs_from run post).total_monthly_cost,
         r.address :: (calculate_costs_from run post).unknown_costs⟩ := by
    simp [calculate_costs_from, hexc]
  rw [calculate_costs_from_append run pre (r :: post), hcons]
  refine ⟨?_, rfl, rfl, rfl⟩
  simp

/-- A concrete managed-disk resource configuration. -/
def cfgDisk : ResourceConfig :=
  { type := "azurerm_managed_disk"
    name := "data"
    address := "azurerm_managed_disk.data"
    location := some "eastus"
    sku := none
    size := none
    tier := none
    capacity := none
    account_type := none
    account_replication_type := none
    raw_values :=
      { AfterValues.empty with
          location := some "eastus"
          storage_account_type := some "Standard_LRS"
          disk_size_gb := some 64 } }

theorem calculate_costs_error_isolated_witness :
    (fun _ : ResourceConfig => some HResult.exc) cfgDisk = some HResult.exc
    ∧ cfgDisk.address
        ∈ (calculate_costs_from (fun _ => some HResult.exc) ([] ++ cfgDisk :: [])).unknown_costs :=
  ⟨rfl, (calculate_costs_error_isolated (fun _ => some HResult.exc) [] [] cfgDisk rfl).1⟩

/-! ## Threshold validation -/

/-- C4: `validate_cost_threshold` is `True` exactly when no threshold is set
or the total monthly cost is at most the threshold; the `unknown_costs` (and
`resources`) fields of the breakdown have no effect on the outcome. -/
theorem validate_cost_threshold_spec (t : Option ℚ) (b : CostBreakdown) :
    (validate_cost_threshold t b = true ↔
      t = none ∨ ∃ x, t = some x ∧ b.total_monthly_cost ≤ x)
    ∧ ∀ (res : List ResourceCost) (unk : List String),
        validate_cost_threshold t ⟨res, b.total_monthly_cost, unk⟩ =
          validate_cost_threshold t b := by
  constructor
  · cases t with
    | none => simp [validate_cost_threshold]
    | some x => simp [validate_cost_threshold]
  · intro res unk
    cases t <;> rfl

/-! ## Query-before-load guards -/

/-- C9 (amended): each of the three query methods raises the not-loaded
`ValueError` exactly when the parser holds no truthy plan data — that is,
when `load_plan` has not been called, or the document it loaded was the
empty dict (Python's `if not self.plan_data:` is a dict-truthiness test, not
a `None` test); after a successful load of any non-empty document the
queries succeed. -/
theorem query_guards (p : PlanParser) :
    (raised p.get_resource_changes = !p.loadedTruthy)
    ∧ (raised p.get_resource_count = !p.loadedTruthy)
    ∧ (raised p.get_resource_types = !p.loadedTruthy)
    ∧ ∀ d : PlanDoc, (p.load_plan d).loadedTruthy = d.truthy := by
  rcases hp : p.plan_data with _ | d
  · simp [PlanParser.get_resource_changes, PlanParser.get_resource_count,
      PlanParser.get_resource_types, PlanParser.loadedTruthy, PlanParser.load_plan,
      raised, hp]
  · by_cases ht : d.truthy
    · rcases hrc : d.resource_changes with _ | cs <;>
        simp [PlanParser.get_resource_changes, PlanParser.get_resource_count,
          PlanParser.get_resource_types, PlanParser.loadedTruthy, PlanParser.load_plan,
          raised, hp, ht, hrc]
    · simp [PlanParser.get_resource_changes, PlanParser.get_resource_count,
        PlanParser.get_resource_types, PlanParser.loadedTruthy, PlanParser.load_plan,
        raised, hp, ht]

/-- C9 counterexample: the empty dict `{}` is a valid plan document, and
`load_plan` stores it successfully — yet `get_resource_changes` on the
result still raises the not-loaded `ValueError`, because the guard tests
dict truthiness rather than presence. -/
theorem query_guards_counterexample :
    (PlanParser.load_plan ⟨"plan.json", none⟩ ⟨none, 0⟩).get_resource_changes
      = .error notLoadedMsg := rfl

/-! ## Resource-change filtering (C2) -/

/-- The specification's filter, in its own words: the entry's action *set*
is exactly `{create}` or exactly `{update}`. -/
def specCreateOrUpdate (c : ResourceChange) : Bool :=
  match c.actions with
  | none => false
  | some l =>
      decide (l.toFinset = {Action.create}) || decide (l.toFinset = {Action.update})

/-- Whether an entry's action list is duplicate-free (always true of actual
plan documents). -/
def actionsNodup (c : ResourceChange) : Bool :=
  match c.actions with
  | none => true
  | some l => decide l.Nodup

theorem nodup_toFinset_singleton {α : Type} [DecidableEq α] (l : List α) (a : α)
    (hnd : l.Nodup) : l.toFinset = {a} ↔ l = [a] := by
  constructor
  · intro h
    have hcard : l.toFinset.card = l.length := List.toFinset_card_of_nodup hnd
    rw [h, Finset.card_singleton] at hcard
    obtain ⟨x, hx⟩ := List.length_eq_one.mp hcard.symm
    have hmem : x ∈ l.toFinset := by simp [hx]
    rw [h, Finset.mem_singleton] at hmem
    rw [hx, hmem]
  · intro h
    subst h
    simp

theorem spec_filter_agrees (c : ResourceChange) (hnd : actionsNodup c = true) :
    specCreateOrUpdate c = actionsCreateOrUpdate c := by
  rcases hc : c.actions with _ | l
  · simp [specCreateOrUpdate, actionsCreateOrUpdate, hc]
  · have h : l.Nodup := by simpa [actionsNodup, hc] using hnd
    rw [Bool.eq_iff_iff]
    simp [specCreateOrUpdate, actionsCreateOrUpdate, hc,
      nodup_toFinset_singleton l Action.create h,
      nodup_toFinset_singleton l Action.update h]

/-- C2: on any loaded plan document with a `resource_changes` array whose
entries carry duplicate-free action lists, `get_resource_changes` returns, in
order of appearance, the extracted configs of exactly those entries whose
action set is exactly `{create}` or exactly `{update}` — every other action
set (destroy, read, no-op, replace) is excluded — and its length equals the
count of such entries. -/
theorem get_resource_changes_spec (p : PlanParser) (d : PlanDoc)
    (cs : List ResourceChange)
    (hload : p.plan_data = some d) (hrc : d.resource_changes = some cs)
    (hnd : ∀ c ∈ cs, actionsNodup c = true) :
    p.get_resource_changes
        = .ok ((cs.filter specCreateOrUpdate).map extract_resource_config)
    ∧ ∀ out, p.get_resource_changes = .ok out →
        out.length = cs.countP specCreateOrUpdate := by
  have ht : d.truthy = true := by simp [PlanDoc.truthy, hrc]
  have hfilter : cs.filter actionsCreateOrUpdate = cs.filter specCreateOrUpdate :=
    List.filter_congr fun c hc => (spec_filter_agrees c (hnd c hc)).symm
  have hmain : p.get_resource_changes
      = .ok ((cs.filter specCreateOrUpdate).map extract_resource_config) := by
    simp [PlanParser.get_resource_changes, hload, ht, hrc, hfilter]
  refine ⟨hmain, fun out hout => ?_⟩
  rw [hmain] at hout
  cases hout
  simp [List.countP_eq_length_filter]

/-- A resource-change literal for witnesses. -/
def mkChange (addr ty : String) (acts : Option (List Action)) : ResourceChange :=
  ⟨addr, ty, "", acts, AfterValues.empty⟩

/-- A plan with every kind of action set. -/
def sampleChanges : List ResourceChange :=
  [mkChange "a.b" "t1" (some [Action.create]),
   mkChange "c.d" "t2" (some [Action.update]),
   mkChange "e.f" "t3" (some [Action.delete]),
   mkChange "g.h" "t4" (some [Action.delete, Action.create]),
   mkChange "i.j" "t5" (some [Action.read]),
   mkChange "k.l" "t6" (some [Action.noop]),
   mkChange "m.n" "t7" none]

def sampleDoc : PlanDoc := ⟨some sampleChanges, 0⟩

def sampleParser : PlanParser := ⟨"plan.json", some sampleDoc⟩

theorem get_resource_changes_spec_witness :
    sampleParser.plan_data = some sampleDoc
    ∧ sampleDoc.resource_changes = some sampleChanges
    ∧ (∀ c ∈ sampleChanges, actionsNodup c = true)
    ∧ sampleParser.get_resource_changes
        = .ok ((sampleChanges.filter specCreateOrUpdate).map extract_resource_config) :=
  ⟨rfl, rfl, by decide,
    (get_resource_changes_spec sampleParser sampleDoc sampleChanges rfl rfl (by decide)).1⟩

/-! ## Handler claims (C5, C7, C8, C10) -/

theorem isEmpty_false {s : String} (h : s ≠ "") : s.isEmpty = false := by
  cases he : s.isEmpty
  · rfl
  · exact absurd ((String.isEmpty_iff s).mp he) h

theorem isEmpty_nil : ("" : String).isEmpty = true := rfl

theorem strTruthy_some {s : String} (h : s ≠ "") : strTruthy (some s) = true := by
  simp [strTruthy, isEmpty_false h]

/-- C5: for a VM config with a (truthy) size and location for which the
pricing source resolves an hourly rate `h`, the VM rule returns
`h * 730` when the OS-disk storage type is absent (or empty), adds the
priced 128GB OS-disk cost when a disk type is present, and returns absent —
no partial result — whenever the base VM price cannot be resolved. -/
theorem vm_handler_spec (env : PricingEnv) (rc : ResourceConfig) (s l : String)
    (pd : PriceData) (h : ℚ)
    (hs : rc.raw_values.size = some s) (hs' : s ≠ "")
    (hl : get_location rc = some l) (hl' : l ≠ "")
    (hvm : env.vmPrice s l = some pd) (hp : pd.retailPrice = some h) :
    (∀ blk, observedOsDisk rc.raw_values = some blk →
        strTruthy blk.storage_account_type = false →
        VirtualMachineHandler.calculate_cost env rc = some (h * 730))
    ∧ (∀ blk dt dpd c, observedOsDisk rc.raw_values = some blk →
        blk.storage_account_type = some dt → dt ≠ "" →
        env.diskPrice dt 128 l = some dpd → dpd.retailPrice = some c →
        VirtualMachineHandler.calculate_cost env rc = some (h * 730 + c))
    ∧ (∀ env2 : PricingEnv, env2.vmPrice s l = none →
        VirtualMachineHandler.calculate_cost env2 rc = none) := by
  refine ⟨?_, ?_, ?_⟩
  · intro blk hblk hfalsy
    simp [VirtualMachineHandler.calculate_cost, hs, hl, strTruthy_some hs',
      strTruthy_some hl', hvm, hp, hblk, hfalsy]
  · intro blk dt dpd c hblk hdt hdt' hdp hc
    simp [VirtualMachineHandler.calculate_cost, hs, hl, strTruthy_some hs',
      strTruthy_some hl', hvm, hp, hblk, hdt, strTruthy_some hdt', hdp, hc]
  · intro env2 hnone
    simp [VirtualMachineHandler.calculate_cost, hs, hl, strTruthy_some hs',
      strTruthy_some hl', hnone]

/-- A VM resource config with no OS disk block. -/
def cfgVM : ResourceConfig :=
  { type := "azurerm_linux_virtual_machine"
    name := "test"
    address := "azurerm_linux_virtual_machine.test"
    location := none
    sku := none
    size := none
    tier := none
    capacity := none
    account_type := none
    account_replication_type := none
    raw_values :=
      { AfterValues.empty with
          location := some "eastus"
          size := some "Standard_D2s_v3" } }

/-- A pricing environment quoting $0.10/hour for every VM and nothing else. -/
def envVM10 : PricingEnv :=
  ⟨fun _ _ => some (consumptionQuote (1 / 10)), fun _ _ => none, fun _ _ _ => none⟩

theorem vm_handler_spec_witness :
    cfgVM.raw_values.size = some "Standard_D2s_v3"
    ∧ ("Standard_D2s_v3" : String) ≠ ""
    ∧ get_location cfgVM = some "eastus"
    ∧ ("eastus" : String) ≠ ""
    ∧ envVM10.vmPrice "Standard_D2s_v3" "eastus" = some (consumptionQuote (1 / 10))
    ∧ (consumptionQuote (1 / 10)).retailPrice = some (1 / 10)
    ∧ VirtualMachineHandler.calculate_cost envVM10 cfgVM = some (1 / 10 * 730)
    ∧ (1 / 10 : ℚ) * 730 = 73 :=
  ⟨rfl, by decide, rfl, by decide, rfl, rfl,
    (vm_handler_spec envVM10 cfgVM "Standard_D2s_v3" "eastus"
        (consumptionQuote (1 / 10)) (1 / 10) rfl (by decide) rfl (by decide)
        rfl rfl).1 ⟨none⟩ rfl rfl,
    by norm_num⟩

/-- C10: when the base VM price resolves to `h` but the OS-disk pricing
lookup for the present disk type returns absent, the VM rule still returns
the base monthly cost `h * 730` as a known cost — the disk portion is
silently omitted, the rule does not fail. -/
theorem vm_handler_disk_gap (env : PricingEnv) (rc : ResourceConfig) (s l : String)
    (pd : PriceData) (h : ℚ) (blk : OsDiskBlock) (dt : String)
    (hs : rc.raw_values.size = some s) (hs' : s ≠ "")
    (hl : get_location rc = some l) (hl' : l ≠ "")
    (hvm : env.vmPrice s l = some pd) (hp : pd.retailPrice = some h)
    (hblk : observedOsDisk rc.raw_values = some blk)
    (hdt : blk.storage_account_type = some dt) (hdt' : dt ≠ "")
    (hmiss : env.diskPrice dt 128 l = none) :
    VirtualMachineHandler.calculate_cost env rc = some (h * 730) := by
  simp [VirtualMachineHandler.calculate_cost, hs, hl, strTruthy_some hs',
    strTruthy_some hl', hvm, hp, hblk, hdt, strTruthy_some hdt', hmiss]

/-- A VM resource config whose OS disk names a storage type. -/
def cfgVMdisk : ResourceConfig :=
  { cfgVM with
      raw_values :=
        { cfgVM.raw_values with os_disk := some [⟨some "Premium_LRS"⟩] } }

theorem vm_handler_disk_gap_witness :
    cfgVMdisk.raw_values.size = some "Standard_D2s_v3"
    ∧ observedOsDisk cfgVMdisk.raw_values = some ⟨some "Premium_LRS"⟩
    ∧ envVM10.diskPrice "Premium_LRS" 128 "eastus" = none
    ∧ VirtualMachineHandler.calculate_cost envVM10 cfgVMdisk = some (1 / 10 * 730) :=
  ⟨rfl, rfl, rfl,
    vm_handler_disk_gap envVM10 cfgVMdisk "Standard_D2s_v3" "eastus"
      (consumptionQuote (1 / 10)) (1 / 10) ⟨some "Premium_LRS"⟩ "Premium_LRS"
      rfl (by decide) rfl (by decide) rfl rfl rfl rfl (by decide) rfl⟩

/-- C8: for a storage-account config with (truthy) account tier, replication
type and location, the storage rule prices the composite SKU
`tier ++ "_" ++ replication` and multiplies the per-GB unit price by the
fixed assumed 100GB — returning absent exactly when that lookup is absent;
and with tier, replication or location missing (falsy) it returns absent
without any lookup. -/
theorem storage_handler_spec (env : PricingEnv) (rc : ResourceConfig)
    (tier repl l : String)
    (ht : rc.raw_values.account_tier = some tier) (ht' : tier ≠ "")
    (hr : rc.raw_values.account_replication_type = some repl) (hr' : repl ≠ "")
    (hl : get_location rc = some l) (hl' : l ≠ "") :
    StorageAccountHandler.calculate_cost env rc
        = (env.storagePrice (tier ++ "_" ++ repl) l).map
            (fun q => q.retailPrice.getD 0 * 100)
    ∧ (∀ (env2 : PricingEnv) (rc2 : ResourceConfig),
        rc2.raw_values.account_tier.getD "" = "" →
        StorageAccountHandler.calculate_cost env2 rc2 = none)
    ∧ (∀ (env2 : PricingEnv) (rc2 : ResourceConfig),
        rc2.raw_values.account_replication_type.getD "" = "" →
        StorageAccountHandler.calculate_cost env2 rc2 = none)
    ∧ (∀ (env2 : PricingEnv) (rc2 : ResourceConfig),
        strTruthy (get_location rc2) = false →
        StorageAccountHandler.calculate_cost env2 rc2 = none) := by
  refine ⟨?_, ?_, ?_, ?_⟩
  · rcases hq : env.storagePrice (tier ++ "_" ++ repl) l with _ | q <;>
      simp [StorageAccountHandler.calculate_cost, ht, hr, hl,
        isEmpty_false ht', isEmpty_false hr', strTruthy_some hl', hq]
  · intro env2 rc2 hmiss
    simp [StorageAccountHandler.calculate_cost, hmiss, isEmpty_nil]
  · intro env2 rc2 hmiss
    simp [StorageAccountHandler.calculate_cost, hmiss, isEmpty_nil]
  · intro env2 rc2 hmiss
    simp [StorageAccountHandler.calculate_cost, hmiss, isEmpty_nil]

/-- A storage-account resource config. -/
def cfgStorage : ResourceConfig :=
  { type := "azurerm_storage_account"
    name := "test"
    address := "azurerm_storage_account.test"
    location := none
    sku := none
    size := none
    tier := none
    capacity := none
    account_type := none
    account_replication_type := none
    raw_values :=
      { AfterValues.empty with
          location := some "eastus"
          account_tier := some "Standard"
          account_replication_type := some "LRS" } }

/-- A pricing environment quoting $0.02/GB for the `Standard_LRS` SKU. -/
def envStorage2c : PricingEnv :=
  ⟨fun _ _ => none,
   fun account_type _ =>
     if account_type = "Standard_LRS" then some (consumptionQuote (2 / 100)) else none,
   fun _ _ _ => none⟩

theorem storage_handler_spec_witness :
    cfgStorage.raw_values.account_tier = some "Standard"
    ∧ cfgStorage.raw_values.account_replication_type = some "LRS"
    ∧ get_location cfgStorage = some "eastus"
    ∧ StorageAccountHandler.calculate_cost envStorage2c cfgStorage
        = (envStorage2c.storagePrice ("Standard" ++ "_" ++ "LRS") "eastus").map
            (fun q => q.retailPrice.getD 0 * 100)
    ∧ envStorage2c.storagePrice ("Standard" ++ "_" ++ "LRS") "eastus"
        = some (consumptionQuote (2 / 100))
    ∧ (2 / 100 : ℚ) * 100 = 2 :=
  ⟨rfl, rfl, rfl,
    (storage_handler_spec envStorage2c cfgStorage "Standard" "LRS" "eastus"
        rfl (by decide) rfl (by decide) rfl (by decide)).1,
    rfl, by norm_num⟩

/-- C7: the managed-disk tier ladder maps a positive size `s` to P4 iff
`s ≤ 32`, P6 iff `32 < s ≤ 64`, P10 iff `64 < s ≤ 128`, P15 iff
`128 < s ≤ 256` and P20 iff `256 < s` (boundaries inclusive); a static-table
hit makes `get_managed_disk_price` return that tier's table value as the
unit price; and the managed-disk rule returns the looked-up unit price
directly as the monthly cost, with no scaling by the size. -/
theorem disk_tier_spec (s : Int) (hs : 0 < s) :
    ((diskTier s = "P4" ↔ s ≤ 32)
      ∧ (diskTier s = "P6" ↔ 32 < s ∧ s ≤ 64)
      ∧ (diskTier s = "P10" ↔ 64 < s ∧ s ≤ 128)
      ∧ (diskTier s = "P15" ↔ 128 < s ∧ s ≤ 256)
      ∧ (diskTier s = "P20" ↔ 256 < s))
    ∧ (∀ (api : List (String × String) → ApiResp) (now : ℚ) (stt region : String)
        (cst : ClientState) (p : ℚ),
        DISK_PRICING stt (diskTier s) = some p → p ≠ 0 →
        get_managed_disk_price api now stt s region cst
          = (some (consumptionQuote p), cst))
    ∧ (∀ (env : PricingEnv) (rc : ResourceConfig) (stt l : String) (pd : PriceData),
        rc.raw_values.storage_account_type = some stt → stt ≠ "" →
        get_location rc = some l → l ≠ "" →
        rc.raw_values.disk_size_gb = some s →
        env.diskPrice stt s l = some pd →
        ManagedDiskHandler.calculate_cost env rc = some (pd.retailPrice.getD 0)) := by
  refine ⟨⟨?_, ?_, ?_, ?_, ?_⟩, ?_, ?_⟩
  · unfold diskTier
    split_ifs with h1 h2 h3 h4 <;> simp_all <;> try omega
  · unfold diskTier
    split_ifs with h1 h2 h3 h4 <;> simp_all <;> try omega
  · unfold diskTier
    split_ifs with h1 h2 h3 h4 <;> simp_all <;> try omega
  · unfold diskTier
    split_ifs with h1 h2 h3 h4 <;> simp_all <;> try omega
  · unfold diskTier
    split_ifs with h1 h2 h3 h4 <;> simp_all <;> try omega
  · intro api now stt region cst p hp hp0
    simp [get_managed_disk_price, hp, numTruthy, hp0]
  · intro env rc stt l pd hstt hstt' hl hl' hsz hpd
    have hs0 : (s != 0) = true := by
      simp only [bne_iff_ne]
      omega
    simp [ManagedDiskHandler.calculate_cost, hstt, hl, strTruthy_some hstt',
      strTruthy_some hl', hsz, hs0, hpd]

theorem disk_tier_spec_witness :
    (0 : Int) < 64
    ∧ diskTier 64 = "P6"
    ∧ DISK_PRICING "Standard_LRS" (diskTier 64) = some (1021 / 100)
    ∧ (1021 / 100 : ℚ) ≠ 0
    ∧ get_managed_disk_price (fun _ => ApiResp.empty) 0 "Standard_LRS" 64 "eastus" ⟨[]⟩
        = (some (consumptionQuote (1021 / 100)), (⟨[]⟩ : ClientState)) :=
  ⟨by norm_num, rfl, rfl, by norm_num,
    (disk_tier_spec 64 (by norm_num)).2.1 (fun _ => ApiResp.empty) 0 "Standard_LRS"
      "eastus" ⟨[]⟩ (1021 / 100) rfl (by norm_num)⟩

/-! ## Cache-key order lemmas (C6) -/

theorem listCharLt_irrefl (a : List Char) : listCharLt a a = false := by
  induction a with
  | nil => rfl
  | cons c cs ih => simp [listCharLt, lt_irrefl, ih]

theorem listCharLt_asymm (a : List Char) :
    ∀ b, listCharLt a b = true → listCharLt b a = false := by
  induction a with
  | nil =>
      intro b hb
      cases b with
      | nil => simp [listCharLt] at hb
      | cons d ds => rfl
  | cons c cs ih =>
      intro b hb
      cases b with
      | nil => simp [listCharLt] at hb
      | cons d ds =>
          by_cases hcd : c < d
          · simp [listCharLt, hcd, asymm hcd]
          · by_cases hdc : d < c
            · simp [listCharLt, hcd, hdc] at hb
            · have htail := ih ds (by simpa [listCharLt, hcd, hdc] using hb)
              simp [listCharLt, hcd, hdc, htail]

theorem listCharLt_trans (a : List Char) :
    ∀ b c, listCharLt a b = true → listCharLt b c = true → listCharLt a c = true := by
  induction a with
  | nil =>
      intro b c hab hbc
      cases b with
      | nil => simp [listCharLt] at hab
      | cons y ys =>
          cases c with
          | nil => simp [listCharLt] at hbc
          | cons z zs => simp [listCharLt]
  | cons x xs ih =>
      intro b c hab hbc
      cases b with
      | nil => simp [listCharLt] at hab
      | cons y ys =>
          cases c with
          | nil => simp [listCharLt] at hbc
          | cons z zs =>
              by_cases hxy : x < y
              · by_cases hyz : y < z
                · simp [listCharLt, lt_trans hxy hyz]
                · by_cases hzy : z < y
                  · simp [listCharLt, hyz, hzy] at hbc
                  · have hy : y = z := le_antisymm (not_lt.mp hzy) (not_lt.mp hyz)
                    rw [← hy]
                    simp [listCharLt, hxy]
              · by_cases hyx : y < x
                · simp [listCharLt, hxy, hyx] at hab
                · have hx : x = y := le_antisymm (not_lt.mp hyx) (not_lt.mp hxy)
                  subst hx
                  have hab' : listCharLt xs ys = true := by
                    simpa [listCharLt, hxy, hyx] using hab
                  by_cases hyz : x < z
                  · simp [listCharLt, hyz]
                  · by_cases hzy : z < x
                    · simp [listCharLt, hyz, hzy] at hbc
                    · have hbc' : listCharLt ys zs = true := by
                        simpa [listCharLt, hyz, hzy] using hbc
                      simp [listCharLt, hyz, hzy, ih ys zs hab' hbc']

theorem listCharLt_conn (a : List Char) :
    ∀ b, listCharLt a b = false → listCharLt b a = false → a = b := by
  induction a with
  | nil =>
      intro b h1 _
      cases b with
      | nil => rfl
      | cons d ds => simp [listCharLt] at h1
  | cons c cs ih =>
      intro b h1 h2
      cases b with
      | nil => simp [listCharLt] at h2
      | cons d ds =>
          by_cases hcd : c < d
          · simp [listCharLt, hcd] at h1
          · by_cases hdc : d < c
            · simp [listCharLt, hdc] at h2
            · have hhd : c = d := le_antisymm (not_lt.mp hdc) (not_lt.mp hcd)
              subst hhd
              have h1' : listCharLt cs ds = false := by
                simpa [listCharLt, hcd] using h1
              have h2' : listCharLt ds cs = false := by
                simpa [listCharLt, hdc] using h2
              rw [ih ds h1' h2']

theorem string_data_inj {a b : String} (h : a.data = b.data) : a = b := by
  cases a
  cases b
  exact congrArg String.mk h

theorem pairLt_asymm (x y : String × String) (h : pairLt x y = true) :
    pairLt y x = false := by
  unfold pairLt at h ⊢
  by_cases h11 : listCharLt x.1.data y.1.data = true
  · simp [h11, listCharLt_asymm _ _ h11]
  · by_cases h12 : listCharLt y.1.data x.1.data = true
    · simp [h11, h12] at h
    · have h22 := by simpa [h11, h12] using h
      simp [h11, h12, listCharLt_asymm _ _ h22]

theorem pairLt_trans (x y z : String × String) (hxy : pairLt x y = true)
    (hyz : pairLt y z = true) : pairLt x z = true := by
  unfold pairLt at hxy hyz ⊢
  by_cases a1 : listCharLt x.1.data y.1.data = true
  · by_cases b1 : listCharLt y.1.data z.1.data = true
    · simp [listCharLt_trans _ _ _ a1 b1]
    · by_cases b2 : listCharLt z.1.data y.1.data = true
      · simp [b1, b2] at hyz
      · have h1 : y.1.data = z.1.data :=
          listCharLt_conn _ _ (by simpa using b1) (by simpa using b2)
        simp [← h1, a1]
  · by_cases a2 : listCharLt y.1.data x.1.data = true
    · simp [a1, a2] at hxy
    · have h1 : x.1.data = y.1.data :=
        listCharLt_conn _ _ (by simpa using a1) (by simpa using a2)
      have hxy' : listCharLt x.2.data y.2.data = true := by
        simpa [a1, a2] using hxy
      by_cases b1 : listCharLt y.1.data z.1.data = true
      · simp [h1, b1]
      · by_cases b2 : listCharLt z.1.data y.1.data = true
        · simp [b1, b2] at hyz
        · have h2 : y.1.data = z.1.data :=
            listCharLt_conn _ _ (by simpa using b1) (by simpa using b2)
          have hyz' : listCharLt y.2.data z.2.data = true := by
            simpa [b1, b2] using hyz
          have hfst : listCharLt x.1.data z.1.data = false := by
            rw [h1, h2]
            exact listCharLt_irrefl _
          have hfst' : listCharLt z.1.data x.1.data = false := by
            rw [h1, h2]
            exact listCharLt_irrefl _
          simp [hfst, hfst', listCharLt_trans _ _ _ hxy' hyz']

theorem pairLt_conn (x y : String × String) (h1 : pairLt x y = false)
    (h2 : pairLt y x = false) : x = y := by
  unfold pairLt at h1 h2
  by_cases a1 : listCharLt x.1.data y.1.data = true
  · simp [a1] at h1
  · by_cases a2 : listCharLt y.1.data x.1.data = true
    · simp [a2] at h2
    · have hfst : x.1 = y.1 :=
        string_data_inj (listCharLt_conn _ _ (by simpa using a1) (by simpa using a2))
      have hx2 : listCharLt x.2.data y.2.data = false := by
        simpa [a1, a2] using h1
      have hy2 : listCharLt y.2.data x.2.data = false := by
        simpa [a1, a2] using h2
      have hsnd : x.2 = y.2 := string_data_inj (listCharLt_conn _ _ hx2 hy2)
      exact Prod.ext hfst hsnd

instance : IsTotal (String × String) pairOrd where
  total x y := by
    by_cases h1 : pairLt x y = true
    · exact Or.inl (Or.inl h1)
    · by_cases h2 : pairLt y x = true
      · exact Or.inr (Or.inl h2)
      · exact Or.inl (Or.inr (pairLt_conn x y (by simpa using h1) (by simpa using h2)))

instance : IsTrans (String × String) pairOrd where
  trans x y z hxy hyz := by
    rcases hxy with h1 | h1
    · rcases hyz with h2 | h2
      · exact Or.inl (pairLt_trans x y z h1 h2)
      · exact Or.inl (h2 ▸ h1)
    · rcases hyz with h2 | h2
      · exact Or.inl (h1 ▸ h2)
      · exact Or.inr (h1.trans h2)

instance : IsAntisymm (String × String) pairOrd where
  antisymm x y hxy hyx := by
    rcases hxy with h1 | h1
    · rcases hyx with h2 | h2
      · exact absurd h2 (by simp [pairLt_asymm x y h1])
      · exact h2.symm
    · exact h1

/-- Sorting is canonical: permuted filter items sort identically. -/
theorem sortPairs_perm {l1 l2 : List (String × String)} (h : l1.Perm l2) :
    sortPairs l1 = sortPairs l2 :=
  List.eq_of_perm_of_sorted
    ((List.perm_insertionSort pairOrd l1).trans
      (h.trans (List.perm_insertionSort pairOrd l2).symm))
    (List.sorted_insertionSort pairOrd l1) (List.sorted_insertionSort pairOrd l2)

/-- The cache key does not depend on the insertion order of the filters. -/
theorem cacheKey_perm {l1 l2 : List (String × String)} (h : l1.Perm l2) :
    cacheKey l1 = cacheKey l2 := by
  unfold cacheKey
  rw [sortPairs_perm h]

theorem lookupCache_store_self (entries : List (String × PriceData × ℚ))
    (key : String) (pd : PriceData) (ts : ℚ) :
    lookupCache (storeCache entries key pd ts) key = some (pd, ts) := by
  simp [storeCache, lookupCache]

/-- C6 (amended): for two pricing lookups with identical filter parameters
(in any insertion order — the cache key is order-independent) *whose first
remote response carries a quote*, only the first lookup issues a remote
call within the one-hour cache window and the second returns the cached
quote; and a lookup that finds only an expired cache entry never returns it
but issues a new remote call.  (Unconditionally the claim fails: when the
remote response carries no items nothing is cached, so a repeated lookup
issues a second remote call — see the counterexample.) -/
theorem fetch_price_cache_spec (api : List (String × String) → ApiResp)
    (f1 f2 : List (String × String)) (st : ClientState) (t0 t1 : ℚ) (pd : PriceData)
    (hperm : f1.Perm f2)
    (hmiss : lookupCache st.cache (cacheKey f1) = none)
    (hapi : api f1 = ApiResp.items pd)
    (hwin : t1 - t0 < CACHE_DURATION) :
    cacheKey f1 = cacheKey f2
    ∧ (fetch_price api t0 f1 st).1 = .ok (some pd)
    ∧ (fetch_price api t0 f1 st).2.2 = true
    ∧ (fetch_price api t1 f2 (fetch_price api t0 f1 st).2.1).1 = .ok (some pd)
    ∧ (fetch_price api t1 f2 (fetch_price api t0 f1 st).2.1).2.2 = false
    ∧ ∀ (st2 : ClientState) (t2 : ℚ) (pd2 : PriceData) (ts2 : ℚ),
        lookupCache st2.cache (cacheKey f1) = some (pd2, ts2) →
        ¬ t2 - ts2 < CACHE_DURATION →
        (fetch_price api t2 f1 st2).2.2 = true := by
  have hkey : cacheKey f1 = cacheKey f2 := cacheKey_perm hperm
  have hfirst : fetch_price api t0 f1 st
      = (.ok (some pd), ⟨storeCache st.cache (cacheKey f1) pd t0⟩, true) := by
    simp [fetch_price, hmiss, hapi]
  have hsecond : fetch_price api t1 f2 ⟨storeCache st.cache (cacheKey f1) pd t0⟩
      = (.ok (some pd), ⟨storeCache st.cache (cacheKey f1) pd t0⟩, false) := by
    simp [fetch_price, ← hkey, lookupCache_store_self, hwin]
  refine ⟨hkey, by rw [hfirst], by rw [hfirst], ?_, ?_, ?_⟩
  · rw [hfirst, hsecond]
  · rw [hfirst, hsecond]
  · intro st2 t2 pd2 ts2 hlook hexp
    cases hresp : api f1 <;> simp [fetch_price, hlook, hexp, hresp]

theorem fetch_price_cache_spec_witness :
    ([("b", "2"), ("a", "1")]).Perm [("a", "1"), ("b", "2")]
    ∧ lookupCache (⟨[]⟩ : ClientState).cache (cacheKey [("b", "2"), ("a", "1")]) = none
    ∧ (1 : ℚ) / 2 - 0 < CACHE_DURATION
    ∧ (fetch_price (fun _ => ApiResp.items (consumptionQuote 1)) (1 / 2)
        [("a", "1"), ("b", "2")]
        (fetch_price (fun _ => ApiResp.items (consumptionQuote 1)) 0
          [("b", "2"), ("a", "1")] ⟨[]⟩).2.1).2.2 = false :=
  ⟨by decide, rfl, by norm_num [CACHE_DURATION],
    (fetch_price_cache_spec (fun _ => ApiResp.items (consumptionQuote 1))
        [("b", "2"), ("a", "1")] [("a", "1"), ("b", "2")] ⟨[]⟩ 0 (1 / 2)
        (consumptionQuote 1)
        (by decide) rfl rfl (by norm_num [CACHE_DURATION])).2.2.2.2.1⟩

/-- C6 counterexample: two lookups with identical filter parameters, both
inside the one-hour window (same instant, empty cache), each issue a remote
call, because a response with no items is not cached — refuting the claim's
unconditional "at most one remote pricing-service call". -/
theorem fetch_price_cache_counterexample :
    (fetch_price (fun _ => ApiResp.empty) 0 [("serviceName", "Storage")] ⟨[]⟩).2.2 = true
    ∧ (fetch_price (fun _ => ApiResp.empty) 0 [("serviceName", "Storage")]
        (fetch_price (fun _ => ApiResp.empty) 0 [("serviceName", "Storage")] ⟨[]⟩).2.1).2.2
        = true :=
  ⟨rfl, rfl⟩

end TerraFin
